import Mathlib

/-
Verification of the conversation controller in
src/frontend/src/app/page.tsx (the Home component of the chat frontend).

The embedding is shallow: React state hooks become an explicit `ChatState`
record; `Date.now()` becomes explicit clock parameters (milliseconds as Nat);
the `fetch` call and its resolution become a `FetchOutcome` value fed to a
total resolution function mirroring the try/catch/finally control flow.
JavaScript string truthiness (empty string is falsy) is modelled explicitly
where the source relies on it.
-/

namespace LanguageAssistant

/-- A character JavaScript `String.prototype.trim` removes: the ECMAScript
WhiteSpace set (TAB, VT, FF, SP, NBSP, ZWNBSP and every Space_Separator
code point: U+1680, U+2000 through U+200A, U+202F, U+205F, U+3000) and the
LineTerminator set (LF, CR, LS, PS). -/
def isJsWhitespace (c : Char) : Bool :=
  c == ' ' || c == '\t' || c == '\n' || c == '\r' || c == '\x0B' || c == '\x0C' ||
  c == '\u00A0' || c == '\u1680' ||
  c == '\u2000' || c == '\u2001' || c == '\u2002' || c == '\u2003' ||
  c == '\u2004' || c == '\u2005' || c == '\u2006' || c == '\u2007' ||
  c == '\u2008' || c == '\u2009' || c == '\u200A' ||
  c == '\u2028' || c == '\u2029' || c == '\u202F' || c == '\u205F' ||
  c == '\u3000' || c == '\uFEFF'

/-- JavaScript `s.trim()`: drop leading and trailing whitespace. -/
def jsTrim (s : String) : String :=
  String.mk (((s.data.dropWhile isJsWhitespace).reverse.dropWhile isJsWhitespace).reverse)

/-- The `Message` interface of page.tsx: `id : number` (`Date.now()` based,
modelled as Nat milliseconds), `text : string`, `fromUser : boolean`. -/
structure Message where
  id : Nat
  text : String
  fromUser : Bool
deriving Repr, DecidableEq

/-- One entry of the serialized history payload: `{role, content}`. -/
structure HistoryEntry where
  role : String
  content : String
deriving Repr, DecidableEq

/-- The component state held by the three `useState` hooks:
`messages`, `input`, `loading`. -/
structure ChatState where
  messages : List Message
  input : String
  loading : Bool
deriving Repr, DecidableEq

/-- `toHistory` from page.tsx lines 21-25:
`msgs.map(({fromUser, text}) => ({role: fromUser ? "user" : "assistant", content: text}))`. -/
def toHistory (msgs : List Message) : List HistoryEntry :=
  msgs.map (fun m =>
    { role := if m.fromUser then "user" else "assistant", content := m.text })

/-- The literal URL passed to `fetch` on line 39 of page.tsx. -/
def chatUrl : String :=
  "https://languageassistantagent-production.up.railway.app/chat"

/-- The literal error text appended by the catch handler (line 66). -/
def connectErrorText : String :=
  "🚨 Error: Failed to connect to server. Please check your internet or backend."

/-- A parseable JSON response body, restricted to the two fields the code
reads (line 52). A field is `none` when absent from the body (JavaScript
`undefined`), `some s` when present with string value `s`. -/
structure ChatResponseBody where
  assistant_reply : Option String
  response : Option String
deriving Repr, DecidableEq

/-- JavaScript `a || b` restricted to an optional string on the left:
absent (`undefined`) and the empty string are falsy, everything else truthy. -/
def jsOrString (v : Option String) (alt : String) : String :=
  match v with
  | some s => if s = "" then alt else s
  | none => alt

/-- Line 52 of page.tsx: `data.assistant_reply || data.response || "No reply"`. -/
def extractReply (data : ChatResponseBody) : String :=
  jsOrString data.assistant_reply (jsOrString data.response "No reply")

/-- The possible outcomes of the awaited `fetch` exchange:
either the transport rejects, or an HTTP response arrives with `res.ok`
(true exactly for 2xx statuses), the body text (`res.text()`), and the
result of `res.json()` (`none` when the body is not parseable JSON). -/
inductive FetchOutcome where
  | transportError
  | httpResponse (ok : Bool) (bodyText : String) (parsed : Option ChatResponseBody)
deriving Repr, DecidableEq

/-- The single outbound request built on lines 39-46 of page.tsx. -/
structure ChatRequest where
  url : String
  method : String
  contentType : String
  history : List HistoryEntry
  user_input : String
deriving Repr, DecidableEq

/-- The synchronous phase of `handleSend` (lines 28-36): the guard on the
trimmed input, then append the user message (raw untrimmed text, id from
the clock), clear the input, set loading. -/
def handleSendSync (s : ChatState) (tSend : Nat) : ChatState :=
  if jsTrim s.input = "" then s
  else
    { messages := s.messages ++ [{ id := tSend, text := s.input, fromUser := true }],
      input := "",
      loading := true }

/-- The asynchronous resolution of `handleSend` (lines 38-72), mirroring the
try/catch/finally: on a non-ok response `throw new Error(await res.text())`
lands in the catch handler, which appends the fixed `connectErrorText`
message (the thrown message itself is only passed to `console.error`);
a `res.json()` parse failure also lands in the catch handler; a parseable
ok response appends the bot message with `extractReply`; `finally` clears
the loading flag in every branch. `now` is `Date.now()` at resolution time. -/
def resolveFetch (s : ChatState) (now : Nat) (o : FetchOutcome) : ChatState :=
  let afterTry : ChatState :=
    match o with
    | .transportError =>
        { s with messages := s.messages ++
            [{ id := now + 2, text := connectErrorText, fromUser := false }] }
    | .httpResponse ok _bodyText parsed =>
        if ok then
          match parsed with
          | some data =>
              { s with messages := s.messages ++
                  [{ id := now + 1, text := extractReply data, fromUser := false }] }
          | none =>
              { s with messages := s.messages ++
                  [{ id := now + 2, text := connectErrorText, fromUser := false }] }
        else
          { s with messages := s.messages ++
              [{ id := now + 2, text := connectErrorText, fromUser := false }] }
  { afterTry with loading := false }

/-- The whole `handleSend` run (lines 28-73): the no-op guard, the
synchronous phase, the request built from the updated transcript and the
captured raw input, and the resolution of the fetch outcome. Returns the
final state and the request issued (`none` when no network call is made).
`tSend` and `tResolve` are the `Date.now()` readings at submission and at
resolution. -/
def handleSend (s : ChatState) (tSend tResolve : Nat) (o : FetchOutcome) :
    ChatState × Option ChatRequest :=
  if jsTrim s.input = "" then (s, none)
  else
    let userMsg : Message := { id := tSend, text := s.input, fromUser := true }
    let updatedMessages := s.messages ++ [userMsg]
    let s1 : ChatState := { messages := updatedMessages, input := "", loading := true }
    let req : ChatRequest :=
      { url := chatUrl
        method := "POST"
        contentType := "application/json"
        history := toHistory updatedMessages
        user_input := s.input }
    (resolveFetch s1 tResolve o, some req)

/-- The submit trigger as the UI exposes it: the form's only submit button
carries `disabled={loading}` (line 141), so while `loading` is true neither a
click nor implicit form submission can invoke `handleSend`. -/
def submitTrigger (s : ChatState) (tSend tResolve : Nat) (o : FetchOutcome) :
    ChatState × Option ChatRequest :=
  if s.loading then (s, none) else handleSend s tSend tResolve o

/-- `setInput` via the controlled input field (line 135). -/
def setInputField (s : ChatState) (v : String) : ChatState :=
  { s with input := v }

/-- The user message appended by the synchronous phase. -/
def userMsgOf (s : ChatState) (tSend : Nat) : Message :=
  { id := tSend, text := s.input, fromUser := true }

/-- The single message appended by the resolution phase, by outcome. -/
def replyMessageOf (now : Nat) (o : FetchOutcome) : Message :=
  match o with
  | .transportError => { id := now + 2, text := connectErrorText, fromUser := false }
  | .httpResponse ok _ parsed =>
      if ok then
        match parsed with
        | some data => { id := now + 1, text := extractReply data, fromUser := false }
        | none => { id := now + 2, text := connectErrorText, fromUser := false }
      else { id := now + 2, text := connectErrorText, fromUser := false }

/-- Helper: for a non-trivial input, a full `handleSend` run leaves the
transcript extended by exactly the user message and one reply message. -/
theorem handleSend_messages_eq (s : ChatState) (t1 t2 : Nat) (o : FetchOutcome)
    (h : jsTrim s.input ≠ "") :
    (handleSend s t1 t2 o).1.messages =
      s.messages ++ [userMsgOf s t1, replyMessageOf t2 o] := by
  unfold handleSend resolveFetch replyMessageOf userMsgOf
  rcases o with _ | ⟨ok, body, parsed⟩ <;> simp [h]
  · cases ok
    · simp
    · cases parsed <;> simp

/-- Helper: a full `handleSend` run always ends with loading cleared. -/
theorem handleSend_loading_false (s : ChatState) (t1 t2 : Nat) (o : FetchOutcome)
    (h : jsTrim s.input ≠ "") :
    (handleSend s t1 t2 o).1.loading = false := by
  unfold handleSend resolveFetch
  rcases o with _ | ⟨ok, body, parsed⟩ <;> simp [h]

/-- Helper: the reply message is always assistant-origin. -/
theorem replyMessageOf_fromUser (t2 : Nat) (o : FetchOutcome) :
    (replyMessageOf t2 o).fromUser = false := by
  unfold replyMessageOf
  rcases o with _ | ⟨ok, body, parsed⟩
  · rfl
  · cases ok
    · rfl
    · cases parsed <;> rfl

/-- Helper: the reply message id strictly exceeds the resolution clock. -/
theorem replyMessageOf_id_gt (t2 : Nat) (o : FetchOutcome) :
    t2 < (replyMessageOf t2 o).id := by
  rcases o with _ | ⟨ok, body, parsed⟩
  · simp [replyMessageOf]
  · cases ok
    · simp [replyMessageOf]
    · cases parsed <;> simp [replyMessageOf]

/-- Helper: the request a non-trivial `handleSend` issues. -/
theorem handleSend_request_eq (s : ChatState) (t1 t2 : Nat) (o : FetchOutcome)
    (h : jsTrim s.input ≠ "") :
    (handleSend s t1 t2 o).2 = some
      { url := chatUrl
        method := "POST"
        contentType := "application/json"
        history := toHistory (s.messages ++ [userMsgOf s t1])
        user_input := s.input } := by
  unfold handleSend userMsgOf
  simp [h]

/-- C9: for every input whose trimmed form is empty, submit is a no-op:
state unchanged (transcript, pending flag, input field) and no request. -/
theorem c9_empty_noop (s : ChatState) (t1 t2 : Nat) (o : FetchOutcome)
    (h : jsTrim s.input = "") :
    handleSend s t1 t2 o = (s, none) := by
  unfold handleSend
  simp [h]

/-- C9 witness: a whitespace-only input (a space and an ideographic space
U+3000) at a concrete state. -/
theorem c9_witness :
    (jsTrim " \u3000" = "") ∧
      handleSend { messages := [], input := " \u3000", loading := false } 5 6
        FetchOutcome.transportError =
        ({ messages := [], input := " \u3000", loading := false }, none) :=
  ⟨by decide, c9_empty_noop { messages := [], input := " \u3000", loading := false } 5 6
    FetchOutcome.transportError (by decide)⟩

/-- C5: while pending is true the submit trigger has no effect: the state is
unchanged and no network exchange is initiated. -/
theorem c5_pending_guard (s : ChatState) (t1 t2 : Nat) (o : FetchOutcome)
    (h : s.loading = true) :
    submitTrigger s t1 t2 o = (s, none) := by
  unfold submitTrigger
  simp [h]

/-- C5 witness: a concrete pending state with a concrete outcome. -/
theorem c5_witness :
    ({ messages := [], input := "hi", loading := true } : ChatState).loading = true ∧
      submitTrigger { messages := [], input := "hi", loading := true } 1 2
        FetchOutcome.transportError =
        ({ messages := [], input := "hi", loading := true }, none) :=
  ⟨rfl, c5_pending_guard { messages := [], input := "hi", loading := true } 1 2
    FetchOutcome.transportError rfl⟩

/-- C6: for every input with non-empty trim, the synchronous phase appends
exactly one user-origin message carrying the raw untrimmed input text at the
end of the transcript, clears the input field, and sets pending. -/
theorem c6_sync_phase (s : ChatState) (t1 : Nat) (h : jsTrim s.input ≠ "") :
    handleSendSync s t1 =
      { messages := s.messages ++ [{ id := t1, text := s.input, fromUser := true }],
        input := "",
        loading := true } := by
  unfold handleSendSync
  simp [h]

/-- C6 witness: a concrete input with surrounding whitespace kept raw. -/
theorem c6_witness :
    (jsTrim " hello " ≠ "") ∧
      handleSendSync { messages := [], input := " hello ", loading := false } 7 =
        { messages := [{ id := 7, text := " hello ", fromUser := true }],
          input := "", loading := true } :=
  ⟨by decide, c6_sync_phase { messages := [], input := " hello ", loading := false } 7
    (by decide)⟩

/-- C7: the serialized history has the transcript's length and, position by
position (hence order-preservingly), maps origin to role ("user" for
user-origin, "assistant" otherwise) with content equal to the message text. -/
theorem c7_history_shape (msgs : List Message) :
    (toHistory msgs).length = msgs.length ∧
      ∀ i : Nat, (toHistory msgs).get? i =
        (msgs.get? i).map (fun m =>
          { role := if m.fromUser then "user" else "assistant", content := m.text }) := by
  constructor
  · simp [toHistory]
  · intro i
    simp [toHistory]

/-- Whether the char list `pre` is a leading segment of the second list. -/
def listPre : List Char → List Char → Bool
  | [], _ => true
  | _ :: _, [] => false
  | a :: as, b :: bs => a == b && listPre as bs

/-- Whether `needle` occurs contiguously inside `hay` (first argument `hay`). -/
def hasSubstr : List Char → List Char → Bool
  | [], needle => needle.isEmpty
  | c :: t, needle => listPre needle (c :: t) || hasSubstr t needle

/-- Whether `url` ends with `path`. -/
def endsWithPath (url path : String) : Bool :=
  listPre path.data.reverse url.data.reverse

/-- Spec section 6 describes the target URL as a configured base URL plus the
`/chat` path, the base sourced from an externally supplied configuration value
with a literal fallback default when unset. This definition follows those
words, for comparison against the URL the code actually uses. -/
def spec_targetUrl (configuredBase : Option String) (defaultBase : String) : String :=
  (match configuredBase with
   | some b => b
   | none => defaultBase) ++ "/chat"

/-- C8: for every outcome of the exchange — transport failure, non-2xx
status, parse failure, or success — the run is total (nothing escapes the
controller: `handleSend` is a total function of the outcome), pending is
false afterwards, and exactly one assistant-origin entry is appended after
the user message. -/
theorem c8_absorbed (s : ChatState) (t1 t2 : Nat) (o : FetchOutcome)
    (h : jsTrim s.input ≠ "") :
    (handleSend s t1 t2 o).1.loading = false ∧
    (handleSend s t1 t2 o).1.messages =
      s.messages ++ [userMsgOf s t1, replyMessageOf t2 o] ∧
    (replyMessageOf t2 o).fromUser = false :=
  ⟨handleSend_loading_false s t1 t2 o h,
   handleSend_messages_eq s t1 t2 o h,
   replyMessageOf_fromUser t2 o⟩

/-- C8 witness: a transport failure at a concrete state. -/
theorem c8_witness :
    (jsTrim "Hi" ≠ "") ∧
      ((handleSend { messages := [], input := "Hi", loading := false } 3 4
          FetchOutcome.transportError).1.loading = false ∧
        (handleSend { messages := [], input := "Hi", loading := false } 3 4
            FetchOutcome.transportError).1.messages =
          [] ++ [userMsgOf { messages := [], input := "Hi", loading := false } 3,
            replyMessageOf 4 FetchOutcome.transportError] ∧
        (replyMessageOf 4 FetchOutcome.transportError).fromUser = false) :=
  ⟨by decide, c8_absorbed { messages := [], input := "Hi", loading := false } 3 4
    FetchOutcome.transportError (by decide)⟩

/-- C10: for every submit with non-empty trimmed input, the request body's
history has the transcript length plus one (hence is non-empty), its last
element is role "user" with content equal to the raw input, and the
`user_input` field equals that same raw input. -/
theorem c10_last_history_entry (s : ChatState) (t1 t2 : Nat) (o : FetchOutcome)
    (h : jsTrim s.input ≠ "") :
    (handleSend s t1 t2 o).2.map (fun r => r.history.length) =
      some (s.messages.length + 1) ∧
    (handleSend s t1 t2 o).2.map (fun r => r.history.getLast?) =
      some (some { role := "user", content := s.input }) ∧
    (handleSend s t1 t2 o).2.map ChatRequest.user_input = some s.input := by
  rw [handleSend_request_eq s t1 t2 o h]
  refine ⟨?_, ?_, rfl⟩
  · simp [toHistory]
  · simp [toHistory, userMsgOf]

/-- A concrete one-message state used by the C10 witness. -/
def c10Start : ChatState :=
  { messages := [{ id := 1, text := "a", fromUser := true }]
    input := "Hola"
    loading := false }

/-- C10 witness: concrete submit over a one-message transcript. -/
theorem c10_witness :
    (jsTrim c10Start.input ≠ "") ∧
      ((handleSend c10Start 2 3 FetchOutcome.transportError).2.map
          (fun r => r.history.length) = some (c10Start.messages.length + 1) ∧
        (handleSend c10Start 2 3 FetchOutcome.transportError).2.map
          (fun r => r.history.getLast?) =
            some (some { role := "user", content := c10Start.input }) ∧
        (handleSend c10Start 2 3 FetchOutcome.transportError).2.map
          ChatRequest.user_input = some c10Start.input) :=
  ⟨by decide, c10_last_history_entry c10Start 2 3 FetchOutcome.transportError
    (by decide)⟩

/-- C2 counterexample: the code's request URL is the fixed literal `chatUrl`
for every submit; no configuration is consulted. Under the spec's rule, an
externally configured base of "http://localhost:8000" would give a different
URL, so the request target is not the configured-base-plus-path of the claim. -/
theorem c2_counterexample :
    (handleSend { messages := [], input := "Hi", loading := false } 0 0
        FetchOutcome.transportError).2.map ChatRequest.url = some chatUrl ∧
    spec_targetUrl (some "http://localhost:8000") chatUrl ≠ chatUrl := by
  exact ⟨rfl, by decide⟩

/-- C2 amended: the single outbound request of every submit is a POST to the
fixed literal URL `chatUrl` (which ends with the path `/chat`), with header
Content-Type: application/json; no configured base URL is involved. -/
theorem c2_amended_request_shape (s : ChatState) (t1 t2 : Nat) (o : FetchOutcome)
    (h : jsTrim s.input ≠ "") :
    (handleSend s t1 t2 o).2.map ChatRequest.method = some "POST" ∧
    (handleSend s t1 t2 o).2.map ChatRequest.contentType = some "application/json" ∧
    (handleSend s t1 t2 o).2.map ChatRequest.url = some chatUrl ∧
    endsWithPath chatUrl "/chat" = true := by
  rw [handleSend_request_eq s t1 t2 o h]
  exact ⟨rfl, rfl, rfl, by decide⟩

/-- C2 amended witness: a concrete submit. -/
theorem c2_amended_witness :
    (jsTrim "Hi" ≠ "") ∧
      ((handleSend { messages := [], input := "Hi", loading := false } 0 0
          FetchOutcome.transportError).2.map ChatRequest.method = some "POST" ∧
        (handleSend { messages := [], input := "Hi", loading := false } 0 0
          FetchOutcome.transportError).2.map ChatRequest.contentType =
            some "application/json" ∧
        (handleSend { messages := [], input := "Hi", loading := false } 0 0
          FetchOutcome.transportError).2.map ChatRequest.url = some chatUrl ∧
        endsWithPath chatUrl "/chat" = true) :=
  ⟨by decide, c2_amended_request_shape
    { messages := [], input := "Hi", loading := false } 0 0
    FetchOutcome.transportError (by decide)⟩

/-- C1 counterexample: a non-2xx response with status 500 and body
"server error" yields a last transcript entry whose text is the fixed
generic connectivity message and does NOT contain "server error" — the
body text is not surfaced. -/
theorem c1_counterexample :
    ((handleSend { messages := [], input := "Hi", loading := false } 10 11
          (FetchOutcome.httpResponse false "server error" none)).1.messages.getLast?).map
        (fun m => hasSubstr m.text.data "server error".data) = some false ∧
    ((handleSend { messages := [], input := "Hi", loading := false } 10 11
          (FetchOutcome.httpResponse false "server error" none)).1.messages.getLast?).map
        Message.text = some connectErrorText := by
  exact ⟨rfl, rfl⟩

/-- C1 amended: for every submit whose network call returns a non-2xx HTTP
status, the controller appends an assistant-origin message whose text is the
fixed generic connectivity error string — the response body text is wrapped
in the thrown error and logged, not surfaced — and pending is false
afterwards. -/
theorem c1_amended_nonok_generic (s : ChatState) (t1 t2 : Nat) (bodyText : String)
    (parsed : Option ChatResponseBody) (h : jsTrim s.input ≠ "") :
    (handleSend s t1 t2 (FetchOutcome.httpResponse false bodyText parsed)).1.messages =
      s.messages ++ [userMsgOf s t1,
        { id := t2 + 2, text := connectErrorText, fromUser := false }] ∧
    (handleSend s t1 t2 (FetchOutcome.httpResponse false bodyText parsed)).1.loading =
      false := by
  refine ⟨?_, handleSend_loading_false s t1 t2 _ h⟩
  rw [handleSend_messages_eq s t1 t2 _ h]
  rfl

/-- C1 amended witness: concrete 500 with body "server error". -/
theorem c1_amended_witness :
    (jsTrim "Hi" ≠ "") ∧
      ((handleSend { messages := [], input := "Hi", loading := false } 10 11
          (FetchOutcome.httpResponse false "server error" none)).1.messages =
        [] ++ [userMsgOf { messages := [], input := "Hi", loading := false } 10,
          { id := 11 + 2, text := connectErrorText, fromUser := false }] ∧
      (handleSend { messages := [], input := "Hi", loading := false } 10 11
          (FetchOutcome.httpResponse false "server error" none)).1.loading = false) :=
  ⟨by decide, c1_amended_nonok_generic
    { messages := [], input := "Hi", loading := false } 10 11 "server error" none
    (by decide)⟩

/-- The body of the C4 counterexample: `assistant_reply` present but empty. -/
def c4Body : ChatResponseBody := { assistant_reply := some "", response := some "Hola" }

/-- C4 counterexample: on a 2xx response whose body carries
`assistant_reply: ""` (present, not omitted) and `response: "Hola"`, the
appended text is "Hola": the fallback field is consulted even though the
primary field is not omitted, because `||` treats the empty string as falsy. -/
theorem c4_counterexample :
    ((handleSend { messages := [], input := "Hi", loading := false } 0 0
          (FetchOutcome.httpResponse true "" (some c4Body))).1.messages.getLast?).map
        Message.text = some "Hola" ∧
    c4Body.assistant_reply ≠ none := by
  exact ⟨rfl, by decide⟩

/-- C4 amended: on a 2xx response with a parseable body, exactly one
assistant-origin message is appended, its text given by the extraction
cascade: `assistant_reply` when present and non-empty; otherwise `response`
when present and non-empty; otherwise the literal "No reply" — and the
extraction is total, so the controller never crashes on a
malformed-but-parseable body. -/
theorem c4_amended_reply_extraction (s : ChatState) (t1 t2 : Nat)
    (body : ChatResponseBody) (h : jsTrim s.input ≠ "") :
    (handleSend s t1 t2 (FetchOutcome.httpResponse true "" (some body))).1.messages =
      s.messages ++ [userMsgOf s t1,
        { id := t2 + 1, text := extractReply body, fromUser := false }] ∧
    (body.assistant_reply ≠ none → body.assistant_reply ≠ some "" →
      some (extractReply body) = body.assistant_reply) ∧
    ((body.assistant_reply = none ∨ body.assistant_reply = some "") →
      body.response ≠ none → body.response ≠ some "" →
      some (extractReply body) = body.response) ∧
    ((body.assistant_reply = none ∨ body.assistant_reply = some "") →
      (body.response = none ∨ body.response = some "") →
      extractReply body = "No reply") := by
  refine ⟨?_, ?_, ?_, ?_⟩
  · rw [handleSend_messages_eq s t1 t2 _ h]
    rfl
  · intro hne hns
    rcases hv : body.assistant_reply with _ | v
    · exact absurd hv hne
    · have : v ≠ "" := fun hv0 => hns (by rw [hv, hv0])
      simp [extractReply, jsOrString, hv, this]
  · rintro (ha | ha) hne hns
    · rcases hw : body.response with _ | w
      · exact absurd hw hne
      · have : w ≠ "" := fun hw0 => hns (by rw [hw, hw0])
        simp [extractReply, jsOrString, ha, hw, this]
    · rcases hw : body.response with _ | w
      · exact absurd hw hne
      · have : w ≠ "" := fun hw0 => hns (by rw [hw, hw0])
        simp [extractReply, jsOrString, ha, hw, this]
  · rintro (ha | ha) (hr | hr) <;> simp [extractReply, jsOrString, ha, hr]

/-- C4 amended witness: concrete body with the primary field absent. -/
theorem c4_amended_witness :
    (jsTrim "Hi" ≠ "") ∧
      ((handleSend { messages := [], input := "Hi", loading := false } 0 1
          (FetchOutcome.httpResponse true ""
            (some { assistant_reply := none, response := some "Hola" }))).1.messages =
        [] ++ [userMsgOf { messages := [], input := "Hi", loading := false } 0,
          { id := 1 + 1,
            text := extractReply { assistant_reply := none, response := some "Hola" },
            fromUser := false }] ∧
      (({ assistant_reply := none, response := some "Hola" } :
          ChatResponseBody).assistant_reply ≠ none →
        ({ assistant_reply := none, response := some "Hola" } :
          ChatResponseBody).assistant_reply ≠ some "" →
        some (extractReply { assistant_reply := none, response := some "Hola" }) =
          ({ assistant_reply := none, response := some "Hola" } :
            ChatResponseBody).assistant_reply) ∧
      ((({ assistant_reply := none, response := some "Hola" } :
          ChatResponseBody).assistant_reply = none ∨
        ({ assistant_reply := none, response := some "Hola" } :
          ChatResponseBody).assistant_reply = some "") →
        ({ assistant_reply := none, response := some "Hola" } :
          ChatResponseBody).response ≠ none →
        ({ assistant_reply := none, response := some "Hola" } :
          ChatResponseBody).response ≠ some "" →
        some (extractReply { assistant_reply := none, response := some "Hola" }) =
          ({ assistant_reply := none, response := some "Hola" } :
            ChatResponseBody).response) ∧
      ((({ assistant_reply := none, response := some "Hola" } :
          ChatResponseBody).assistant_reply = none ∨
        ({ assistant_reply := none, response := some "Hola" } :
          ChatResponseBody).assistant_reply = some "") →
        (({ assistant_reply := none, response := some "Hola" } :
          ChatResponseBody).response = none ∨
        ({ assistant_reply := none, response := some "Hola" } :
          ChatResponseBody).response = some "") →
        extractReply { assistant_reply := none, response := some "Hola" } =
          "No reply")) :=
  ⟨by decide, c4_amended_reply_extraction
    { messages := [], input := "Hi", loading := false } 0 1
    { assistant_reply := none, response := some "Hola" } (by decide)⟩

/-- First reply body in the C3 run. -/
def c3Body1 : ChatResponseBody := { assistant_reply := some "hi", response := none }

/-- Second reply body in the C3 run. -/
def c3Body2 : ChatResponseBody := { assistant_reply := some "ok", response := none }

/-- The C3 run: two sequential submits through the trigger with a
non-decreasing millisecond clock. The first submit is at time 100 and its
response resolves within the same millisecond (bot id 101); the second
submit happens at time 101 (user id 101). -/
def c3Run : ChatState :=
  let s0 : ChatState := { messages := [], input := "a", loading := false }
  let s1 := (submitTrigger s0 100 100
    (FetchOutcome.httpResponse true "" (some c3Body1))).1
  (submitTrigger (setInputField s1 "b") 101 101
    (FetchOutcome.httpResponse true "" (some c3Body2))).1

/-- C3 counterexample: a reachable two-submit run whose transcript carries the
id 101 twice (the first bot message and the second user message), so ids are
not pairwise distinct within a session. -/
theorem c3_counterexample :
    c3Run.messages.map Message.id = [100, 101, 101, 102] ∧
    ¬ (c3Run.messages.map Message.id).Nodup := by
  have h : c3Run.messages.map Message.id = [100, 101, 101, 102] := by rfl
  exact ⟨h, by rw [h]; decide⟩

/-- The ids of the messages one `handleSend` run appends. -/
def appendedIds (s : ChatState) (t1 t2 : Nat) (o : FetchOutcome) : List Nat :=
  (((handleSend s t1 t2 o).1.messages).drop s.messages.length).map Message.id

/-- C3 amended: within a single submit, with a non-decreasing clock
(resolution not earlier than submission), the two appended messages have
distinct ids; across distinct submits ids can collide (see the
counterexample), so session-wide uniqueness does not hold. -/
theorem c3_amended_single_submit_ids (s : ChatState) (t1 t2 : Nat)
    (o : FetchOutcome) (h : jsTrim s.input ≠ "") (hclock : t1 ≤ t2) :
    appendedIds s t1 t2 o = [t1, (replyMessageOf t2 o).id] ∧
    (appendedIds s t1 t2 o).Nodup := by
  have hm := handleSend_messages_eq s t1 t2 o h
  have hids : appendedIds s t1 t2 o = [t1, (replyMessageOf t2 o).id] := by
    unfold appendedIds
    rw [hm, List.drop_left]
    rfl
  refine ⟨hids, ?_⟩
  rw [hids]
  have hgt := replyMessageOf_id_gt t2 o
  have hne : t1 ≠ (replyMessageOf t2 o).id := by omega
  simp [hne]

/-- C3 amended witness: a concrete single submit with equal clocks. -/
theorem c3_amended_witness :
    (jsTrim "x" ≠ "") ∧ (5 : Nat) ≤ 5 ∧
      (appendedIds { messages := [], input := "x", loading := false } 5 5
          FetchOutcome.transportError =
        [5, (replyMessageOf 5 FetchOutcome.transportError).id] ∧
      (appendedIds { messages := [], input := "x", loading := false } 5 5
          FetchOutcome.transportError).Nodup) :=
  ⟨by decide, le_refl 5, c3_amended_single_submit_ids
    { messages := [], input := "x", loading := false } 5 5
    FetchOutcome.transportError (by decide) (le_refl 5)⟩

end LanguageAssistant
